import Mathlib

/-!
Shallow embedding of the audioanalyser repository (sebastienrousseau/audioanalyser),
covering the parts of the code the claims are about:

* `src/audioanalyser/modules/audio_recorder.py` — the `AudioSettings` dataclass,
  `Config` validation, the `AudioRecorder.record_audio` loop with its WAV file
  handling and signal-based stop flag, `validate_output_file`, and the
  `audio_recorder` entry point;
* `src/audioanalyser/modules/server.py` — `run_analysis_thread` and
  `get_analysis_status` (the file-based status mechanism);
* `src/audioanalyser/__main__.py` — the CLI dispatch chain in `main`.

Modelling conventions:
* Python integers are `Int`; Python exceptions are `Except String` values.
* The filesystem seen by one function is only the files that function touches:
  an `Option` value, `none` meaning the file does not exist.
* `pyaudio` portaudio format constants carry their numeric values from
  `portaudio.h` (`paInt32 = 2`, `paInt24 = 4`, `paInt16 = 8`).
* The CPython `wave` module behaviour used by `record_audio` is embedded
  faithfully to `Lib/wave.py`: `open(path, "wb")` creates an empty file, the
  header is written on the first `writeframes` and the RIFF sizes are patched
  after every `writeframes` and on `close`; `with` closes the writer on both
  normal and exceptional exit.
* Python float arithmetic in `int(rate / chunk * record_seconds)` is embedded
  as exact rational arithmetic followed by truncation toward zero (the
  semantics of `int()` on a float); IEEE-754 rounding of the intermediate
  quotient is not modelled.
-/

namespace AudioAnalyser

/-- Constant `pyaudio.paInt16` (portaudio `paInt16 = 0x00000008`). -/
def paInt16 : Int := 8

/-- Constant `pyaudio.paInt24` (portaudio `paInt24 = 0x00000004`). -/
def paInt24 : Int := 4

/-- Constant `pyaudio.paInt32` (portaudio `paInt32 = 0x00000002`). -/
def paInt32 : Int := 2

/-- The `AudioSettings` dataclass of `audio_recorder.py` (defaults included). -/
structure AudioSettings where
  channels : Int := 1
  chunk : Int := 1024
  format : Int := paInt16
  input_folder : String := "recordings"
  rate : Int := 44100
  record_seconds : Int := 10
deriving Repr, DecidableEq

/-- Method `Config.validate_audio_settings`: raises `ValueError` (modelled as
`Except.error` carrying the message) under exactly the three checks of the
source, in source order; returns `()` otherwise. -/
def validate_audio_settings (s : AudioSettings) : Except String Unit :=
  if ¬ (s.format = paInt16 ∨ s.format = paInt24 ∨ s.format = paInt32) then
    .error "Invalid audio format."
  else if ¬ (1 ≤ s.channels ∧ s.channels ≤ 2) then
    .error "Channels must be 1 (mono) or 2 (stereo)."
  else if ¬ (8000 ≤ s.rate ∧ s.rate ≤ 48000) then
    .error "Sample rate must be between 8000 and 48000 Hz."
  else
    .ok ()

/-- The `Config` class: holds validated settings. -/
structure Config where
  settings : AudioSettings
deriving Repr, DecidableEq

/-- Constructor `Config.__init__`: runs `validate_directory` (which only creates the
missing directory and cannot raise `ValueError`; modelled as succeeding) and
then `validate_audio_settings`.  Construction is `Except`-valued: the error is
the `ValueError` the constructor raises. -/
def Config.make (s : AudioSettings) : Except String Config :=
  match validate_audio_settings s with
  | .error e => .error e
  | .ok _ => .ok ⟨s⟩

/-- The predicate the spec names: format in the allowed set, channels 1 or 2,
rate within 8000..48000 inclusive.  Stated from the spec sentence, to be
compared with `Config.make` (refinement direction of claim C1). -/
def specValidSettings (s : AudioSettings) : Prop :=
  (s.format = paInt16 ∨ s.format = paInt24 ∨ s.format = paInt32) ∧
    (s.channels = 1 ∨ s.channels = 2) ∧ (8000 ≤ s.rate ∧ s.rate ≤ 48000)

instance (s : AudioSettings) : Decidable (specValidSettings s) := by
  unfold specValidSettings; infer_instance

/-- Function `pyaudio.PyAudio.get_sample_size` on the three formats `record_audio` can
reach after validation: bytes per sample. -/
def get_sample_size (format : Int) : Int :=
  if format = paInt16 then 2
  else if format = paInt24 then 3
  else if format = paInt32 then 4
  else 0

/-- Python `int()` applied to a (here: exact rational) quotient: truncation
toward zero. -/
def truncInt (q : ℚ) : Int :=
  if 0 ≤ q then Int.floor q else - Int.floor (-q)

/-- The value of `int(rate / chunk * record_seconds)` for a nonzero chunk. -/
def chunkTarget (s : AudioSettings) : Int :=
  truncInt ((s.rate : ℚ) / (s.chunk : ℚ) * (s.record_seconds : ℚ))

/-- The `total_chunks` expression of `record_audio` (lines 175-179):
`int(rate / chunk * record_seconds)`.  Division by a zero `chunk` raises
`ZeroDivisionError` (it happens inside the `try` block, before the WAV file
is opened). -/
def total_chunks (s : AudioSettings) : Except String Int :=
  if s.chunk = 0 then .error "ZeroDivisionError: division by zero"
  else .ok (chunkTarget s)

/-- The audio parameters a WAV header records. -/
structure WavParams where
  nchannels : Int
  sampwidth : Int
  framerate : Int
deriving Repr, DecidableEq

/-- The output path's content on disk: whether a RIFF/WAVE header (with its
parameters) is present, and how many chunk-writes of audio frames follow it.
`wave.open(path, "wb")` creates the file empty; `Wave_write` emits the header
on the first data write or on close and patches the RIFF sizes after every
`writeframes` and on `close`. -/
structure WavDisk where
  header : Option WavParams
  chunks : Nat
deriving Repr, DecidableEq

/-- A file is a valid (playable-header) WAV container when its header has been
written; the header then also carries the correct data size, since
`Wave_write` patches it on every `writeframes` and on `close`. -/
def WavDisk.isValidWav (d : WavDisk) : Bool :=
  d.header.isSome

/-- The state of a CPython `Wave_write` object: the parameters set so far and
the number of chunk-writes performed. -/
structure WavWriter where
  nchannels : Option Int
  sampwidth : Option Int
  framerate : Option Int
  written : Nat
deriving Repr, DecidableEq

/-- Call `wave.open(path, "wb")`: creates the file (empty, no header yet) and a
fresh writer with no parameters set. -/
def wave_open_wb : WavDisk × WavWriter :=
  (⟨none, 0⟩, ⟨none, none, none, 0⟩)

/-- Method `Wave_write.setnchannels`. -/
def setnchannels (w : WavWriter) (c : Int) : WavWriter :=
  { w with nchannels := some c }

/-- Method `Wave_write.setsampwidth`. -/
def setsampwidth (w : WavWriter) (sw : Int) : WavWriter :=
  { w with sampwidth := some sw }

/-- Method `Wave_write.setframerate`. -/
def setframerate (w : WavWriter) (fr : Int) : WavWriter :=
  { w with framerate := some fr }

/-- Method `Wave_write.writeframes(data)`: ensures the header is on disk (raises
`wave.Error` when a parameter is missing), appends one chunk of frames and
patches the RIFF sizes.  The resulting disk content is determined by the
writer state. -/
def writeframes (w : WavWriter) : Except String (WavWriter × WavDisk) :=
  match w.nchannels, w.sampwidth, w.framerate with
  | some c, some sw, some fr =>
      .ok ({ w with written := w.written + 1 },
           ⟨some ⟨c, sw, fr⟩, w.written + 1⟩)
  | _, _, _ => .error "wave.Error: parameters not set"

/-- Method `Wave_write.close` (run by the `with` block on every exit, normal or
exceptional): ensures the header is on disk and patches the RIFF sizes. -/
def wave_close (w : WavWriter) : Except String WavDisk :=
  match w.nchannels, w.sampwidth, w.framerate with
  | some c, some sw, some fr => .ok ⟨some ⟨c, sw, fr⟩, w.written⟩
  | _, _, _ => .error "wave.Error: parameters not set"

/-- How the `for _ in range(total_chunks)` loop of `record_audio` exited. -/
inductive LoopExit
  | completed    -- `range` exhausted
  | stopped      -- `if not self.is_recording: break`
  | readError    -- `stream.read` raised (caught at line 199)
  | writeError   -- `wf.writeframes` raised (caught at line 199)
deriving Repr, DecidableEq

/-- State threaded through the recording loop: finished iterations (each one
chunk read and written), the `Wave_write` object, the file on disk, and the
disk content observed after each `writeframes` (oldest first). -/
structure LoopState where
  idx : Nat
  writer : WavWriter
  disk : WavDisk
  wavTrace : List WavDisk
deriving Repr, DecidableEq

/-- The recording loop (lines 192-197): at each iteration it first checks the
cooperative stop flag (`isRec i` is the value of `is_recording` read at the
check of iteration `i`, the signal handler being the only writer of that
flag), then reads one chunk from the stream (`readOk i` tells whether the
read succeeds) and writes it to the WAV file.  Exceptions break the loop; the
progress-bar update carries no state. -/
def recordLoop (isRec readOk : Nat → Bool) : Nat → LoopState → LoopState × LoopExit
  | 0, st => (st, .completed)
  | rem + 1, st =>
    if isRec st.idx = false then (st, .stopped)
    else if readOk st.idx = false then (st, .readError)
    else
      match writeframes st.writer with
      | .error _ => (st, .writeError)
      | .ok (w2, d2) =>
          recordLoop isRec readOk rem ⟨st.idx + 1, w2, d2, st.wavTrace ++ [d2]⟩

/-- The environment one run of the recorder interacts with: whether the
settings-construction step of `audio_recorder` succeeds, whether
`self.audio.open(...)` succeeds, the stop-flag schedule, the per-iteration
outcome of `stream.read`, and the wall-clock timestamp used for the file
name. -/
structure RecordEnv where
  settings_ok : Bool := true
  stream_opens : Bool := true
  isRec : Nat → Bool := fun _ => true
  readOk : Nat → Bool := fun _ => true
  timestamp : String := "20240101_000000"

/-- How `record_audio` returned. -/
inductive RecExit
  | openFailed       -- `self.audio.open` raised; `return` at line 171
  | divZeroCaught    -- `total_chunks` raised ZeroDivisionError, caught at 199
  | completed
  | stoppedByFlag
  | readErrorCaught
  | waveErrorCaught
  | closeFailed      -- `wave.Error` out of the implicit close
deriving Repr, DecidableEq

def mapLoopExit : LoopExit → RecExit
  | .completed => .completed
  | .stopped => .stoppedByFlag
  | .readError => .readErrorCaught
  | .writeError => .waveErrorCaught

/-- Method `AudioRecorder.generate_output_file`: joins the input folder with
`recording_<timestamp>.wav` (the strftime timestamp is the environment's). -/
def generate_output_file (s : AudioSettings) (timestamp : String) : String :=
  s.input_folder ++ "/recording_" ++ timestamp ++ ".wav"

/-- What one run of `record_audio` left behind: the `output_file_path`
attribute, the output path's content on disk at return (`none`: the file was
never created), the chunks read-and-written, the disk content after each
write, whether a stream open was attempted past validation, and the exit
path taken. -/
structure RecordResult where
  output_file_path : Option String
  file : Option WavDisk
  chunksWritten : Nat
  wavTrace : List WavDisk
  streamOpened : Bool
  exit : RecExit
deriving Repr, DecidableEq

/-- Method `AudioRecorder.record_audio` (lines 145-210): sets `output_file_path`,
opens the input stream (an open failure is caught and the method returns at
line 171, the file never created), computes `total_chunks` (a zero `chunk`
raises inside the `try`, caught at line 199, again before the file is
created), opens the WAV file, sets its three parameters, runs the bounded
loop, and closes the file on every exit of the `with` block.  `range` of a
negative count is empty, hence `Int.toNat`. -/
def record_audio (cfg : Config) (env : RecordEnv) : RecordResult :=
  let path := generate_output_file cfg.settings env.timestamp
  if env.stream_opens = false then
    ⟨some path, none, 0, [], false, .openFailed⟩
  else
    match total_chunks cfg.settings with
    | .error _ => ⟨some path, none, 0, [], true, .divZeroCaught⟩
    | .ok tc =>
        let w1 := setframerate
          (setsampwidth (setnchannels wave_open_wb.2 cfg.settings.channels)
            (get_sample_size cfg.settings.format))
          cfg.settings.rate
        let res := recordLoop env.isRec env.readOk tc.toNat ⟨0, w1, wave_open_wb.1, []⟩
        match wave_close res.1.writer with
        | .ok d => ⟨some path, some d, res.1.idx, res.1.wavTrace, true, mapLoopExit res.2⟩
        | .error _ =>
            ⟨some path, some res.1.disk, res.1.idx, res.1.wavTrace, true, .closeFailed⟩

/-- The attributes of `AudioRecorder` the signal handler and the loop share. -/
structure AudioRecorderState where
  is_recording : Bool
  output_file_path : Option String
deriving Repr, DecidableEq

/-- Method `AudioRecorder.signal_handler`: logs and sets `is_recording = False`;
it touches nothing else. -/
def signal_handler (st : AudioRecorderState) : AudioRecorderState :=
  { st with is_recording := false }

inductive LogLevel
  | info | warning | error
deriving Repr, DecidableEq

/-- Method `AudioRecorder.validate_output_file` (lines 219-233): reads the output
file's size (`none`: the file does not exist); logs a warning when the file
exists with size strictly below 100 bytes, an error when it does not exist.
It is a total function of the observed size: it raises nothing, and it
returns the filesystem unchanged (first component) — no deletion, no write. -/
def validate_output_file (fileSize : Option Nat) : Option Nat × List LogLevel :=
  match fileSize with
  | some size => (some size, if size < 100 then [.warning] else [])
  | none => (none, [.error])

/-- The `audio_recorder` entry point (lines 240-263): builds the settings
(`env.settings_ok = false` models an exception out of `AudioSettings(**dict)`
or of the `int(os.getenv(...))` conversions), constructs `Config` (which may
raise `ValueError`), runs the recorder and returns its `output_file_path`;
the enclosing `try` turns every exception into a logged `None` return. -/
structure RecorderOutcome where
  result : Option String
  caught : Option String
  streamOpened : Bool
  record : Option RecordResult
deriving Repr, DecidableEq

def audio_recorder (custom_settings : Option AudioSettings) (env : RecordEnv) :
    RecorderOutcome :=
  if env.settings_ok = false then
    ⟨none, some "settings construction raised", false, none⟩
  else
    let settings := custom_settings.getD {}
    match Config.make settings with
    | .error e => ⟨none, some e, false, none⟩
    | .ok cfg =>
        let r := record_audio cfg env
        ⟨r.output_file_path, none, r.streamOpened, some r⟩

/-! ### server.py: the file-based analysis status -/

/-- Method `SpeechTextAnalysisServer.run_analysis_thread` (lines 117-129): runs the
analysis, then overwrites `analysis_status.txt` (mode `w`, previous content
irrelevant) with `Completed` on success or `Error: ` followed by the
exception message on failure.  Returns the new status-file content. -/
def run_analysis_thread (analysis : Except String Unit) (_prev : Option String) :
    Option String :=
  match analysis with
  | .ok _ => some "Completed"
  | .error e => some ("Error: " ++ e)

/-- Method `SpeechTextAnalysisServer.get_analysis_status` (lines 131-144): returns
the status file's content when the file exists, `Processing` otherwise. -/
def get_analysis_status (statusFile : Option String) : String :=
  match statusFile with
  | some content => content
  | none => "Processing"

/-! ### __main__.py: CLI dispatch -/

/-- The parsed arguments `main` dispatches on.  `record` is `None` when
`-rec` is absent, `some "default"` when bare, `some path` otherwise;
`translate` is `None` when `-t` is absent and the given list otherwise. -/
structure CliArgs where
  speech_to_text : Bool := false
  text_analysis : Bool := false
  text_to_speech : Bool := false
  summary : Bool := false
  server : Bool := false
  record : Option String := none
  translate : Option (List String) := none
deriving Repr, DecidableEq

inductive CliAction
  | speechToText | textAnalysis | textToSpeech | summary | server
  | record | translate | help
deriving Repr, DecidableEq

/-- Python truthiness of `args.record`: a non-empty string. -/
def truthyRecord : Option String → Bool
  | none => false
  | some s => !s.isEmpty

/-- Python truthiness of `args.translate`: a non-empty list. -/
def truthyTranslate : Option (List String) → Bool
  | none => false
  | some l => !l.isEmpty

/-- The `if/elif` chain of `main` (lines 293-311): the action executed, or
`help` for the final `else: parser.print_help()`. -/
def main_dispatch (a : CliArgs) : CliAction :=
  if a.speech_to_text then .speechToText
  else if a.text_analysis then .textAnalysis
  else if a.text_to_speech then .textToSpeech
  else if a.summary then .summary
  else if a.server then .server
  else if truthyRecord a.record then .record
  else if truthyTranslate a.translate then .translate
  else .help

/-- The seven action flags of one invocation, in the fixed priority order of
the `elif` chain, each with the truthiness test `main` applies to it. -/
def flagList (a : CliArgs) : List (Bool × CliAction) :=
  [(a.speech_to_text, .speechToText), (a.text_analysis, .textAnalysis),
   (a.text_to_speech, .textToSpeech), (a.summary, .summary),
   (a.server, .server), (truthyRecord a.record, .record),
   (truthyTranslate a.translate, .translate)]

/-- Stated from the claim: the action of the first set flag in the fixed
priority order; help when no flag is set. -/
def firstSetAction (a : CliArgs) : CliAction :=
  match (flagList a).find? (fun p => p.1) with
  | some p => p.2
  | none => .help

/-! ### Derived quantities used to characterise the loop -/

/-- The WAV parameters `record_audio` configures on the writer. -/
def wavParamsOf (s : AudioSettings) : WavParams :=
  ⟨s.channels, get_sample_size s.format, s.rate⟩

/-- Number of completed iterations of the recording loop when started at
iteration index `k` with `rem` iterations remaining. -/
def runLen (isRec readOk : Nat → Bool) : Nat → Nat → Nat
  | _, 0 => 0
  | k, rem + 1 =>
    if isRec k = false then 0
    else if readOk k = false then 0
    else runLen isRec readOk (k + 1) rem + 1

/-- The exit path of the recording loop when started at iteration index `k`
with `rem` iterations remaining (given parameters already set on the writer,
`writeframes` cannot fail). -/
def exitOf (isRec readOk : Nat → Bool) : Nat → Nat → LoopExit
  | _, 0 => .completed
  | k, rem + 1 =>
    if isRec k = false then .stopped
    else if readOk k = false then .readError
    else exitOf isRec readOk (k + 1) rem

/-! ## Helper lemmas -/

theorem validate_ok_iff (s : AudioSettings) :
    validate_audio_settings s = Except.ok () ↔ specValidSettings s := by
  unfold validate_audio_settings specValidSettings
  by_cases h1 : s.format = paInt16 ∨ s.format = paInt24 ∨ s.format = paInt32
  · rw [if_neg (not_not_intro h1)]
    by_cases h2 : 1 ≤ s.channels ∧ s.channels ≤ 2
    · rw [if_neg (not_not_intro h2)]
      by_cases h3 : 8000 ≤ s.rate ∧ s.rate ≤ 48000
      · rw [if_neg (not_not_intro h3)]
        constructor
        · intro _
          exact ⟨h1, by omega, h3⟩
        · intro _; rfl
      · rw [if_pos h3]
        constructor
        · intro h; simp at h
        · intro h; exact absurd h.2.2 h3
    · rw [if_pos h2]
      constructor
      · intro h; simp at h
      · intro h; exact absurd (by rcases h.2.1 with hc | hc <;> omega) h2
  · rw [if_pos h1]
    constructor
    · intro h; simp at h
    · intro h; exact absurd h.1 h1

theorem make_ok_iff (s : AudioSettings) :
    Config.make s = Except.ok ⟨s⟩ ↔ specValidSettings s := by
  rw [← validate_ok_iff]
  unfold Config.make
  cases h : validate_audio_settings s with
  | error e => simp
  | ok u => cases u; simp

theorem make_error_iff (s : AudioSettings) :
    (∃ e, Config.make s = Except.error e) ↔ ¬ specValidSettings s := by
  rw [← validate_ok_iff]
  unfold Config.make
  cases h : validate_audio_settings s with
  | error e => simp
  | ok u => cases u; simp

theorem runLen_le (isRec readOk : Nat → Bool) :
    ∀ rem k, runLen isRec readOk k rem ≤ rem := by
  intro rem
  induction rem with
  | zero => intro k; simp [runLen]
  | succ n ih =>
      intro k
      rw [runLen]
      split_ifs with h1 h2
      · omega
      · omega
      · have := ih (k + 1); omega

theorem runLen_stopped (isRec readOk : Nat → Bool) (k0 : Nat)
    (h : ∀ j, k0 ≤ j → isRec j = false) :
    ∀ rem k, k + runLen isRec readOk k rem ≤ max k k0 := by
  intro rem
  induction rem with
  | zero => intro k; simp [runLen]
  | succ n ih =>
      intro k
      rw [runLen]
      by_cases h1 : isRec k = false
      · rw [if_pos h1]; simp
      · have hk : k < k0 := by
          by_contra hk
          exact h1 (h k (by omega))
        rw [if_neg h1]
        by_cases h2 : readOk k = false
        · rw [if_pos h2]; simp
        · rw [if_neg h2]
          have hih := ih (k + 1)
          rw [Nat.max_eq_right (by omega : k + 1 ≤ k0)] at hih
          rw [Nat.max_eq_right (by omega : k ≤ k0)]
          omega

theorem recordLoop_eq (isRec readOk : Nat → Bool) (c sw fr : Int) :
    ∀ (rem k : Nat) (d : WavDisk) (tr : List WavDisk),
      recordLoop isRec readOk rem ⟨k, ⟨some c, some sw, some fr, k⟩, d, tr⟩ =
        (⟨k + runLen isRec readOk k rem,
          ⟨some c, some sw, some fr, k + runLen isRec readOk k rem⟩,
          if runLen isRec readOk k rem = 0 then d
            else ⟨some ⟨c, sw, fr⟩, k + runLen isRec readOk k rem⟩,
          tr ++ (List.range (runLen isRec readOk k rem)).map
            (fun j => ⟨some ⟨c, sw, fr⟩, k + j + 1⟩)⟩,
         exitOf isRec readOk k rem) := by
  intro rem
  induction rem with
  | zero =>
      intro k d tr
      simp [recordLoop, runLen, exitOf]
  | succ n ih =>
      intro k d tr
      rw [recordLoop, runLen, exitOf]
      by_cases h1 : isRec k = false
      · rw [if_pos h1, if_pos h1, if_pos h1]
        simp
      · rw [if_neg h1, if_neg h1, if_neg h1]
        by_cases h2 : readOk k = false
        · rw [if_pos h2, if_pos h2, if_pos h2]
          simp
        · rw [if_neg h2, if_neg h2, if_neg h2]
          have hw : writeframes ⟨some c, some sw, some fr, k⟩ =
              Except.ok (⟨some c, some sw, some fr, k + 1⟩,
                (⟨some ⟨c, sw, fr⟩, k + 1⟩ : WavDisk)) := rfl
          simp only [hw]
          rw [ih (k + 1)]
          refine congrArg₂ Prod.mk ?_ rfl
          have harith : k + 1 + runLen isRec readOk (k + 1) n =
              k + (runLen isRec readOk (k + 1) n + 1) := by omega
          simp only [LoopState.mk.injEq]
          refine ⟨harith, by rw [harith], ?_, ?_⟩
          · by_cases hL : runLen isRec readOk (k + 1) n = 0
            · rw [if_pos hL, if_neg (by omega)]
              simp [hL]
            · rw [if_neg hL, if_neg (by omega)]
              rw [harith]
          · rw [List.append_assoc]
            refine congrArg (tr ++ ·) ?_
            rw [List.range_succ_eq_map, List.map_cons, List.map_map]
            simp only [List.singleton_append, Nat.add_zero]
            refine congrArg₂ List.cons rfl ?_
            refine List.map_congr_left ?_
            intro j _
            simp only [Function.comp]
            refine congrArg (WavDisk.mk (some ⟨c, sw, fr⟩)) ?_
            omega

theorem truncInt_eq_floor (q : ℚ) (h : 0 ≤ q) : truncInt q = Int.floor q := by
  unfold truncInt
  rw [if_pos h]

theorem truncInt_nonpos (q : ℚ) (h : q ≤ 0) : truncInt q ≤ 0 := by
  unfold truncInt
  by_cases h0 : 0 ≤ q
  · rw [if_pos h0]
    have hq : q = 0 := le_antisymm h h0
    simp [hq]
  · rw [if_neg h0]
    have hneg : (0 : ℚ) ≤ -q := by linarith
    have := Int.floor_nonneg.mpr hneg
    omega

theorem record_audio_openfail (cfg : Config) (env : RecordEnv)
    (hstream : env.stream_opens = false) :
    record_audio cfg env =
      ⟨some (generate_output_file cfg.settings env.timestamp),
       none, 0, [], false, .openFailed⟩ := by
  unfold record_audio
  rw [if_pos hstream]

theorem record_audio_divzero (cfg : Config) (env : RecordEnv)
    (hstream : env.stream_opens = true) (hchunk : cfg.settings.chunk = 0) :
    record_audio cfg env =
      ⟨some (generate_output_file cfg.settings env.timestamp),
       none, 0, [], true, .divZeroCaught⟩ := by
  unfold record_audio
  rw [if_neg (by simp [hstream])]
  have htc : total_chunks cfg.settings =
      Except.error "ZeroDivisionError: division by zero" := by
    unfold total_chunks
    rw [if_pos hchunk]
  simp only [htc]

theorem record_audio_run (cfg : Config) (env : RecordEnv)
    (hstream : env.stream_opens = true) (hchunk : cfg.settings.chunk ≠ 0) :
    record_audio cfg env =
      ⟨some (generate_output_file cfg.settings env.timestamp),
       some ⟨some (wavParamsOf cfg.settings),
         runLen env.isRec env.readOk 0 (chunkTarget cfg.settings).toNat⟩,
       runLen env.isRec env.readOk 0 (chunkTarget cfg.settings).toNat,
       (List.range (runLen env.isRec env.readOk 0 (chunkTarget cfg.settings).toNat)).map
         (fun j => ⟨some (wavParamsOf cfg.settings), j + 1⟩),
       true,
       mapLoopExit (exitOf env.isRec env.readOk 0 (chunkTarget cfg.settings).toNat)⟩ := by
  unfold record_audio
  rw [if_neg (by simp [hstream])]
  have htc : total_chunks cfg.settings = Except.ok (chunkTarget cfg.settings) := by
    unfold total_chunks
    rw [if_neg hchunk]
  simp only [htc, wave_open_wb, setnchannels, setsampwidth, setframerate]
  rw [recordLoop_eq env.isRec env.readOk cfg.settings.channels
    (get_sample_size cfg.settings.format) cfg.settings.rate
    (chunkTarget cfg.settings).toNat 0 ⟨none, 0⟩ []]
  simp only [wave_close, wavParamsOf, Nat.zero_add, List.nil_append]

theorem record_audio_path (cfg : Config) (env : RecordEnv) :
    (record_audio cfg env).output_file_path =
      some (generate_output_file cfg.settings env.timestamp) := by
  by_cases hs : env.stream_opens = false
  · rw [record_audio_openfail cfg env hs]
  · have hs' : env.stream_opens = true := by
      revert hs; cases env.stream_opens <;> simp
    by_cases hc : cfg.settings.chunk = 0
    · rw [record_audio_divzero cfg env hs' hc]
    · rw [record_audio_run cfg env hs' hc]

theorem audio_recorder_ok (s : AudioSettings) (env : RecordEnv)
    (hso : env.settings_ok = true) (hvalid : specValidSettings s) :
    audio_recorder (some s) env =
      ⟨(record_audio ⟨s⟩ env).output_file_path, none,
       (record_audio ⟨s⟩ env).streamOpened, some (record_audio ⟨s⟩ env)⟩ := by
  unfold audio_recorder
  rw [if_neg (by simp [hso])]
  have hmk : Config.make s = Except.ok ⟨s⟩ := (make_ok_iff s).mpr hvalid
  simp only [Option.getD_some, hmk]

/-! ## Claim theorems -/

/-- C1: `Config` construction raises a `ValueError` if and only if the format
is not one of paInt16/paInt24/paInt32, or the channel count is not 1 or 2, or
the sample rate is outside the inclusive range 8000..48000; and under any
such invalid settings the recorder never opens an audio stream: validation
fails before `AudioRecorder` is even constructed, so `record_audio` never
runs and no stream-open is attempted. -/
theorem config_valueerror_iff_and_no_stream (s : AudioSettings) (env : RecordEnv) :
    ((∃ e, Config.make s = Except.error e) ↔ ¬ specValidSettings s) ∧
    (¬ specValidSettings s →
      (audio_recorder (some s) env).streamOpened = false ∧
      (audio_recorder (some s) env).record = none) := by
  refine ⟨make_error_iff s, fun hinv => ?_⟩
  unfold audio_recorder
  by_cases hso : env.settings_ok = false
  · rw [if_pos hso]
    exact ⟨rfl, rfl⟩
  · rw [if_neg hso]
    obtain ⟨e, he⟩ := (make_error_iff s).mpr hinv
    simp only [Option.getD_some, he]
    exact ⟨by simp, by simp⟩

theorem config_valueerror_iff_and_no_stream_witness :
    ¬ specValidSettings { format := 99 } ∧
    ((∃ e, Config.make { format := 99 } = Except.error e) ∧
      (audio_recorder (some { format := 99 }) {}).streamOpened = false ∧
      (audio_recorder (some { format := 99 }) {}).record = none) := by
  have hinv : ¬ specValidSettings ({ format := 99 } : AudioSettings) := by decide
  have h := config_valueerror_iff_and_no_stream { format := 99 } {}
  exact ⟨hinv, h.1.mpr hinv, h.2 hinv⟩

/-- C2: for any valid configuration with a positive chunk size and a
nonnegative duration, the recording loop reads at most
`⌊rate / chunk * record_seconds⌋` chunks (the loop is the bounded
`range(total_chunks)` iteration; the model is a total function, so it
terminates). -/
theorem recording_loop_chunk_bound (s : AudioSettings) (env : RecordEnv)
    (hvalid : specValidSettings s) (hchunk : 0 < s.chunk)
    (hrs : 0 ≤ s.record_seconds) :
    ((record_audio ⟨s⟩ env).chunksWritten : Int) ≤
      Int.floor ((s.rate : ℚ) / (s.chunk : ℚ) * (s.record_seconds : ℚ)) := by
  have hr : (0 : ℚ) ≤ (s.rate : ℚ) := by
    have h8 : (8000 : Int) ≤ s.rate := hvalid.2.2.1
    exact_mod_cast (by omega : (0 : Int) ≤ s.rate)
  have hcq : (0 : ℚ) ≤ (s.chunk : ℚ) := by exact_mod_cast le_of_lt hchunk
  have hrsq : (0 : ℚ) ≤ (s.record_seconds : ℚ) := by exact_mod_cast hrs
  have hq : (0 : ℚ) ≤ (s.rate : ℚ) / (s.chunk : ℚ) * (s.record_seconds : ℚ) :=
    mul_nonneg (div_nonneg hr hcq) hrsq
  have hfl : (0 : Int) ≤
      Int.floor ((s.rate : ℚ) / (s.chunk : ℚ) * (s.record_seconds : ℚ)) :=
    Int.floor_nonneg.mpr hq
  by_cases hs : env.stream_opens = false
  · rw [record_audio_openfail ⟨s⟩ env hs]
    simpa using hfl
  · have hs' : env.stream_opens = true := by
      revert hs; cases env.stream_opens <;> simp
    rw [record_audio_run ⟨s⟩ env hs' (show s.chunk ≠ 0 by omega)]
    dsimp only
    have h1 := runLen_le env.isRec env.readOk (chunkTarget s).toNat 0
    have h2 : chunkTarget s =
        Int.floor ((s.rate : ℚ) / (s.chunk : ℚ) * (s.record_seconds : ℚ)) :=
      truncInt_eq_floor _ hq
    rw [h2] at h1 ⊢
    omega

theorem recording_loop_chunk_bound_witness :
    (specValidSettings {} ∧ 0 < ({} : AudioSettings).chunk ∧
      0 ≤ ({} : AudioSettings).record_seconds) ∧
    ((record_audio ⟨{}⟩ {}).chunksWritten : Int) ≤
      Int.floor ((({} : AudioSettings).rate : ℚ) / (({} : AudioSettings).chunk : ℚ) *
        (({} : AudioSettings).record_seconds : ℚ)) := by
  exact ⟨⟨by decide, by decide, by decide⟩,
    recording_loop_chunk_bound {} {} (by decide) (by decide) (by decide)⟩

/-- C3: whenever the WAV file has been opened during `record_audio` (the
stream opened and no zero-chunk division error), the output file on disk is a
valid WAV container with the configured channel count, sample width and frame
rate holding exactly the frames written so far — after each individual
`writeframes` (the incremental states, which is what an interruption would
leave behind) and at return, for every stop-flag schedule and every
read-failure schedule. -/
theorem wav_valid_at_every_point (s : AudioSettings) (env : RecordEnv)
    (hstream : env.stream_opens = true) (hchunk : s.chunk ≠ 0) :
    (record_audio ⟨s⟩ env).file =
      some ⟨some (wavParamsOf s), (record_audio ⟨s⟩ env).chunksWritten⟩ ∧
    (∀ d ∈ (record_audio ⟨s⟩ env).file, d.isValidWav = true) ∧
    (record_audio ⟨s⟩ env).wavTrace =
      (List.range (record_audio ⟨s⟩ env).chunksWritten).map
        (fun j => ⟨some (wavParamsOf s), j + 1⟩) ∧
    (∀ d ∈ (record_audio ⟨s⟩ env).wavTrace, d.isValidWav = true) := by
  rw [record_audio_run ⟨s⟩ env hstream (show s.chunk ≠ 0 from hchunk)]
  dsimp only
  refine ⟨rfl, ?_, rfl, ?_⟩
  · intro d hd
    simp only [Option.mem_def, Option.some.injEq] at hd
    rw [← hd]
    rfl
  · intro d hd
    simp only [List.mem_map] at hd
    obtain ⟨j, _, hj⟩ := hd
    rw [← hj]
    rfl

theorem wav_valid_at_every_point_witness :
    (({} : RecordEnv).stream_opens = true ∧ ({} : AudioSettings).chunk ≠ 0) ∧
    ((record_audio ⟨{}⟩ {}).file =
      some ⟨some (wavParamsOf {}), (record_audio ⟨{}⟩ {}).chunksWritten⟩ ∧
    (∀ d ∈ (record_audio ⟨{}⟩ {}).file, d.isValidWav = true) ∧
    (record_audio ⟨{}⟩ {}).wavTrace =
      (List.range (record_audio ⟨{}⟩ {}).chunksWritten).map
        (fun j => ⟨some (wavParamsOf {}), j + 1⟩) ∧
    (∀ d ∈ (record_audio ⟨{}⟩ {}).wavTrace, d.isValidWav = true)) := by
  exact ⟨⟨rfl, by decide⟩, wav_valid_at_every_point {} {} rfl (by decide)⟩

/-- C4: once the stop flag is (and stays) false from check `k` on — the
signal handler's only effect is setting `is_recording` to false, its sole
shared state with the loop — the loop reads no further chunks (at most `k`
are ever read) and the file on disk keeps exactly the frames written so far,
under a complete, patched WAV header. -/
theorem stop_flag_stops_and_preserves (s : AudioSettings) (env : RecordEnv)
    (st : AudioRecorderState) (k : Nat)
    (hstream : env.stream_opens = true) (hchunk : s.chunk ≠ 0)
    (hstop : ∀ j, k ≤ j → env.isRec j = false) :
    (record_audio ⟨s⟩ env).chunksWritten ≤ k ∧
    (record_audio ⟨s⟩ env).file =
      some ⟨some (wavParamsOf s), (record_audio ⟨s⟩ env).chunksWritten⟩ ∧
    (signal_handler st).is_recording = false ∧
    (signal_handler st).output_file_path = st.output_file_path := by
  refine ⟨?_, ?_, rfl, rfl⟩
  · rw [record_audio_run ⟨s⟩ env hstream (show s.chunk ≠ 0 from hchunk)]
    dsimp only
    have h := runLen_stopped env.isRec env.readOk k hstop (chunkTarget s).toNat 0
    simpa using h
  · rw [record_audio_run ⟨s⟩ env hstream (show s.chunk ≠ 0 from hchunk)]

theorem stop_flag_stops_and_preserves_witness :
    (({ isRec := fun _ => false } : RecordEnv).stream_opens = true ∧
      ({} : AudioSettings).chunk ≠ 0 ∧
      (∀ j : Nat, 0 ≤ j → ({ isRec := fun _ => false } : RecordEnv).isRec j = false)) ∧
    ((record_audio ⟨{}⟩ { isRec := fun _ => false }).chunksWritten ≤ 0 ∧
    (record_audio ⟨{}⟩ { isRec := fun _ => false }).file =
      some ⟨some (wavParamsOf {}),
        (record_audio ⟨{}⟩ { isRec := fun _ => false }).chunksWritten⟩ ∧
    (signal_handler ⟨true, none⟩).is_recording = false ∧
    (signal_handler ⟨true, none⟩).output_file_path =
      (⟨true, none⟩ : AudioRecorderState).output_file_path) := by
  exact ⟨⟨rfl, by decide, fun j _ => rfl⟩,
    stop_flag_stops_and_preserves {} { isRec := fun _ => false } ⟨true, none⟩ 0
      rfl (by decide) (fun j _ => rfl)⟩

/-- C5: the status endpoint reflects the last completed or failed analysis
run: after `run_analysis_thread` the status file holds exactly `Completed` on
success or `Error: ` plus the exception message on failure, and
`get_analysis_status` returns that content; with no status file it reports
`Processing`. -/
theorem analysis_status_reflects_last_run :
    (∀ prev, get_analysis_status (run_analysis_thread (Except.ok ()) prev) =
      "Completed") ∧
    (∀ e prev, get_analysis_status (run_analysis_thread (Except.error e) prev) =
      "Error: " ++ e) ∧
    get_analysis_status none = "Processing" :=
  ⟨fun _ => rfl, fun _ _ => rfl, rfl⟩

/-- C6: the `audio_recorder` entry point propagates no exception to its
caller: its `try`/`except` turns every exception raised to it — from settings
construction, from `Config` validation (the `ValueError` on invalid audio
settings included), or out of the recording call — into a logged `None`
return, and it returns `None` exactly in those cases.  (Exceptions raised
inside the recording loop are caught within `record_audio` itself, so they
never reach the caller either.) -/
theorem audio_recorder_catches_all (cs : Option AudioSettings) (env : RecordEnv) :
    ((audio_recorder cs env).result = none ↔
      (env.settings_ok = false ∨
        ∃ e, Config.make (cs.getD {}) = Except.error e)) ∧
    ((audio_recorder cs env).result = none ↔
      (audio_recorder cs env).caught.isSome = true) := by
  unfold audio_recorder
  by_cases hso : env.settings_ok = false
  · rw [if_pos hso]
    constructor
    · simp [hso]
    · simp
  · rw [if_neg hso]
    cases hmk : Config.make (cs.getD {}) with
    | error e =>
        simp only [hmk]
        exact ⟨by simp, by simp⟩
    | ok cfg =>
        simp only [hmk]
        constructor
        · constructor
          · intro h
            rw [record_audio_path cfg env] at h
            simp at h
          · intro h
            rcases h with h | ⟨e, he⟩
            · exact absurd h hso
            · simp at he
        · constructor
          · intro h
            rw [record_audio_path cfg env] at h
            simp at h
          · intro h
            simp at h

/-- C7: each CLI invocation executes at most one of the seven actions —
speech-to-text, text analysis, text-to-speech, summary, server, record,
translate — namely the one of the first set flag in that fixed priority
order, regardless of how many flags are passed ("set" being the truthiness
test `main` applies: a `store_true` flag true, `-rec` carrying a non-empty
value, `-t` carrying a non-empty list); when no action flag is set, the help
text is printed and no action runs. -/
theorem cli_dispatch_first_set_flag (a : CliArgs) :
    main_dispatch a = firstSetAction a ∧
    (main_dispatch a = .help ↔ ∀ p ∈ flagList a, p.1 = false) := by
  rcases a with ⟨stt, ta, tts, sum, srv, rec, tr⟩
  cases stt <;> cases ta <;> cases tts <;> cases sum <;> cases srv <;>
    cases h1 : truthyRecord rec <;> cases h2 : truthyTranslate tr <;>
      simp [main_dispatch, firstSetAction, flagList, List.find?, h1, h2]

/-- C8: `validate_output_file` is a pure post-write check: it logs a warning
iff the output file exists with size strictly below 100 bytes, logs an error
iff the file does not exist, and in no case raises (it is a total function),
deletes the file, or modifies any state (the filesystem passes through
unchanged). -/
theorem validate_output_file_logs_iff (fileSize : Option Nat) :
    (validate_output_file fileSize).1 = fileSize ∧
    (LogLevel.warning ∈ (validate_output_file fileSize).2 ↔
      ∃ n, fileSize = some n ∧ n < 100) ∧
    (LogLevel.error ∈ (validate_output_file fileSize).2 ↔ fileSize = none) := by
  cases fileSize with
  | none => simp [validate_output_file]
  | some n =>
      by_cases h : n < 100 <;> simp [validate_output_file, h]

/-- C9: `validate_audio_settings` accepts every value of `chunk` and
`record_seconds`, zero and negative included (its verdict is invariant under
changing the two); a nonpositive `record_seconds` (with positive chunk)
yields zero loop iterations and an empty-but-valid WAV file; a zero `chunk`
raises a division-by-zero that is caught inside `record_audio` — the entry
point still returns the output path — so neither parameter is rejected at
validation time. -/
theorem validation_ignores_chunk_and_duration (s : AudioSettings)
    (env : RecordEnv) (c r : Int) (hvalid : specValidSettings s)
    (hso : env.settings_ok = true) (hstream : env.stream_opens = true) :
    (validate_audio_settings { s with chunk := c, record_seconds := r } =
      validate_audio_settings s) ∧
    (0 < s.chunk → s.record_seconds ≤ 0 →
      (record_audio ⟨s⟩ env).chunksWritten = 0 ∧
      (record_audio ⟨s⟩ env).file = some ⟨some (wavParamsOf s), 0⟩) ∧
    (s.chunk = 0 →
      (record_audio ⟨s⟩ env).exit = RecExit.divZeroCaught ∧
      (record_audio ⟨s⟩ env).file = none ∧
      (audio_recorder (some s) env).result =
        some (generate_output_file s env.timestamp)) := by
  refine ⟨?_, ?_, ?_⟩
  · cases s
    rfl
  · intro hc hr
    have hrq : (0 : ℚ) ≤ (s.rate : ℚ) := by
      have h8 : (8000 : Int) ≤ s.rate := hvalid.2.2.1
      exact_mod_cast (by omega : (0 : Int) ≤ s.rate)
    have hcq : (0 : ℚ) ≤ (s.chunk : ℚ) := by exact_mod_cast le_of_lt hc
    have hrsq : (s.record_seconds : ℚ) ≤ 0 := by exact_mod_cast hr
    have hq : (s.rate : ℚ) / (s.chunk : ℚ) * (s.record_seconds : ℚ) ≤ 0 := by
      have hdiv : (0 : ℚ) ≤ (s.rate : ℚ) / (s.chunk : ℚ) := div_nonneg hrq hcq
      nlinarith
    have htc : (chunkTarget s).toNat = 0 := by
      have h2 : chunkTarget s ≤ 0 := truncInt_nonpos _ hq
      omega
    rw [record_audio_run ⟨s⟩ env hstream (show s.chunk ≠ 0 by omega)]
    dsimp only
    rw [htc]
    exact ⟨rfl, rfl⟩
  · intro hc0
    refine ⟨?_, ?_, ?_⟩
    · rw [record_audio_divzero ⟨s⟩ env hstream hc0]
    · rw [record_audio_divzero ⟨s⟩ env hstream hc0]
    · rw [audio_recorder_ok s env hso hvalid]
      dsimp only
      rw [record_audio_path ⟨s⟩ env]

theorem validation_ignores_chunk_and_duration_witness :
    (specValidSettings {} ∧ ({} : RecordEnv).settings_ok = true ∧
      ({} : RecordEnv).stream_opens = true) ∧
    ((validate_audio_settings
        { ({} : AudioSettings) with chunk := 0, record_seconds := -5 } =
      validate_audio_settings {}) ∧
    (0 < ({} : AudioSettings).chunk → ({} : AudioSettings).record_seconds ≤ 0 →
      (record_audio ⟨{}⟩ {}).chunksWritten = 0 ∧
      (record_audio ⟨{}⟩ {}).file = some ⟨some (wavParamsOf {}), 0⟩) ∧
    (({} : AudioSettings).chunk = 0 →
      (record_audio ⟨{}⟩ {}).exit = RecExit.divZeroCaught ∧
      (record_audio ⟨{}⟩ {}).file = none ∧
      (audio_recorder (some {}) {}).result =
        some (generate_output_file {} ({} : RecordEnv).timestamp))) := by
  exact ⟨⟨by decide, rfl, rfl⟩,
    validation_ignores_chunk_and_duration {} {} 0 (-5) (by decide) rfl rfl⟩

/-- C10: when opening the input stream fails, `record_audio` returns right
after having set `output_file_path`, so no file is ever created on disk, yet
`audio_recorder` returns that non-`None` path with nothing caught — at the
return type indistinguishable from a successful recording (both are
`some`). -/
theorem open_failure_phantom_path (s : AudioSettings) (env : RecordEnv)
    (hvalid : specValidSettings s) (hso : env.settings_ok = true)
    (hstream : env.stream_opens = false) :
    (record_audio ⟨s⟩ env).output_file_path =
      some (generate_output_file s env.timestamp) ∧
    (record_audio ⟨s⟩ env).file = none ∧
    (audio_recorder (some s) env).result =
      some (generate_output_file s env.timestamp) ∧
    (audio_recorder (some s) env).caught = none ∧
    (audio_recorder (some s) { env with stream_opens := true }).result.isSome =
      (audio_recorder (some s) env).result.isSome := by
  have hopen := record_audio_openfail ⟨s⟩ env hstream
  refine ⟨?_, ?_, ?_, ?_, ?_⟩
  · rw [hopen]
  · rw [hopen]
  · rw [audio_recorder_ok s env hso hvalid]
    dsimp only
    rw [record_audio_path ⟨s⟩ env]
  · rw [audio_recorder_ok s env hso hvalid]
  · rw [audio_recorder_ok s env hso hvalid,
      audio_recorder_ok s { env with stream_opens := true }
        (by dsimp only; exact hso) hvalid]
    dsimp only
    rw [record_audio_path ⟨s⟩ env,
      record_audio_path ⟨s⟩ { env with stream_opens := true }]

theorem open_failure_phantom_path_witness :
    (specValidSettings {} ∧
      ({ stream_opens := false } : RecordEnv).settings_ok = true ∧
      ({ stream_opens := false } : RecordEnv).stream_opens = false) ∧
    ((record_audio ⟨{}⟩ { stream_opens := false }).output_file_path =
      some (generate_output_file {} ({ stream_opens := false } : RecordEnv).timestamp) ∧
    (record_audio ⟨{}⟩ { stream_opens := false }).file = none ∧
    (audio_recorder (some {}) { stream_opens := false }).result =
      some (generate_output_file {} ({ stream_opens := false } : RecordEnv).timestamp) ∧
    (audio_recorder (some {}) { stream_opens := false }).caught = none ∧
    (audio_recorder (some {})
        { ({ stream_opens := false } : RecordEnv) with stream_opens := true }).result.isSome =
      (audio_recorder (some {}) { stream_opens := false }).result.isSome) := by
  exact ⟨⟨by decide, rfl, rfl⟩,
    open_failure_phantom_path {} { stream_opens := false } (by decide) rfl rfl⟩

end AudioAnalyser
